import Mathlib

/-!
Verification of the Synthesia multi-agent ToC pipeline
(ContextAssembler + Strategic Planner + Knowledge Synthesizer,
`src/agents/context_assembler.py` and `src/agents/initial_research_node.py`).

The Python code is shallowly embedded: strings are Lean `String`s, Python
`None`-able strings are `Option String`, JSON values parsed by `json.loads`
are the inductive `Json` below, exceptions are `Option`/match failures, and
the two non-deterministic inputs of a run (the generation-service response
and the uuid/timestamp drawn inside the planner) are explicit parameters.
-/

/-! ## Python string primitives -/

/-- Whitespace as stripped by Python `str.strip()` (ASCII range). -/
def pyIsSpace (c : Char) : Bool :=
  c = ' ' || c = '\t' || c = '\n' || c = '\r' || c = '\x0b' || c = '\x0c'

/-- Python `str.strip()`. -/
def pyStrip (s : String) : String :=
  String.mk (((s.data.dropWhile pyIsSpace).reverse.dropWhile pyIsSpace).reverse)

/-- Boolean list-prefix test (`needle` begins `hay`). -/
def listStarts : List Char → List Char → Bool
  | [], _ => true
  | _ :: _, [] => false
  | a :: as, b :: bs => a == b && listStarts as bs

/-- Boolean substring test on character lists (Python `needle in hay`). -/
def containsLB : List Char → List Char → Bool
  | [], needle => listStarts needle []
  | c :: t, needle => listStarts needle (c :: t) || containsLB t needle

/-- Python `needle in hay` for strings. -/
def strHasB (hay needle : String) : Bool := containsLB hay.data needle.data

/-- Python `hay.startswith(needle)`. -/
def strStartsB (hay needle : String) : Bool := listStarts needle.data hay.data

/-- Python `hay.endswith(needle)`. -/
def strEndsB (hay needle : String) : Bool :=
  listStarts needle.data.reverse hay.data.reverse

/-- Python `sep.join(xs)`. -/
def joinWith (sep : String) : List String → String
  | [] => ""
  | [x] => x
  | x :: xs => x ++ sep ++ joinWith sep xs

/-- Python `str.lower()` (ASCII). -/
def pyLower (s : String) : String := String.mk (s.data.map Char.toLower)

/-- Python `str.replace("_", " ")` (single-character replacement). -/
def pyReplaceUnderscore (s : String) : String :=
  String.mk (s.data.map (fun c => if c = '_' then ' ' else c))

/-- Python `str.title()`: a letter starts upper-case exactly when the
previous character is not a letter; other letters are lower-cased. -/
def pyTitleGo : Bool → List Char → List Char
  | _, [] => []
  | prevAlpha, c :: cs =>
    if c.isAlpha then
      (if prevAlpha then c.toLower else c.toUpper) :: pyTitleGo true cs
    else
      c :: pyTitleGo false cs

/-- Python `str.title()`. -/
def pyTitle (s : String) : String := String.mk (pyTitleGo false s.data)

/-- First index of character `c` (Python `str.find`, `none` for -1). -/
def findIdx? (cs : List Char) (c : Char) : Option Nat :=
  match cs with
  | [] => none
  | x :: xs => if x = c then some 0 else (findIdx? xs c).map (· + 1)

/-- Last index of character `c` (Python `str.rfind`, `none` for -1). -/
def rfindIdx? (cs : List Char) (c : Char) : Option Nat :=
  match cs with
  | [] => none
  | x :: xs =>
    match rfindIdx? xs c with
    | some i => some (i + 1)
    | none => if x = c then some 0 else none

/-- Python truthiness of an optional string (`None` and `""` are falsy):
`t or d`. -/
def pyOr (t : Option String) (d : String) : String :=
  match t with
  | none => d
  | some s => if s = "" then d else s

/-- Python truthiness of an optional list (`None` and `[]` are falsy):
`t or d`. -/
def pyOrList {α : Type} (t : Option (List α)) (d : List α) : List α :=
  match t with
  | none => d
  | some [] => d
  | some l => l

/-- Rendering of an optional string inside a Python f-string
(`None` prints as `"None"`). -/
def pyShow (t : Option String) : String :=
  match t with
  | none => "None"
  | some s => s

/-! ## JSON values and `json.loads` -/

/-- JSON values as produced by Python `json.loads`.  Objects keep their
key/value pairs in source order (Python dicts are insertion-ordered; a
repeated key overwrites, which `lookup` models by taking the last hit).
Numbers are restricted to integers: the claims under verification only
exercise integer literals, and a fraction or exponent makes `jsonLoads`
fail rather than produce a float. -/
inductive Json where
  | null : Json
  | bool : Bool → Json
  | num : Int → Json
  | str : String → Json
  | arr : List Json → Json
  | obj : List (String × Json) → Json

/-- Python dict lookup `d.get(k)` on a parsed object: last binding of the
key wins; `none` on a missing key or a non-object. -/
def Json.lookup (j : Json) (k : String) : Option Json :=
  match j with
  | .obj kvs => kvs.foldl (fun acc kv => if kv.1 == k then some kv.2 else acc) none
  | _ => none

/-- Is this value a JSON object (a Python dict)? -/
def Json.isObj (j : Json) : Bool :=
  match j with
  | .obj _ => true
  | _ => false

/-- Python truthiness of a parsed JSON value. -/
def Json.pyTruthy (j : Json) : Bool :=
  match j with
  | .null => false
  | .bool b => b
  | .num n => n != 0
  | .str s => s != ""
  | .arr xs => !xs.isEmpty
  | .obj kvs => !kvs.isEmpty

/-- JSON insignificant whitespace. -/
def jsonWs (c : Char) : Bool := c = ' ' || c = '\t' || c = '\n' || c = '\r'

/-- Skip JSON whitespace. -/
def skipWs (cs : List Char) : List Char := cs.dropWhile jsonWs

/-- Hex digit value. -/
def hexVal? (c : Char) : Option Nat :=
  if '0' ≤ c ∧ c ≤ '9' then some (c.toNat - '0'.toNat)
  else if 'a' ≤ c ∧ c ≤ 'f' then some (c.toNat - 'a'.toNat + 10)
  else if 'A' ≤ c ∧ c ≤ 'F' then some (c.toNat - 'A'.toNat + 10)
  else none

/-- Consume an expected literal. -/
def dropLit : List Char → List Char → Option (List Char)
  | [], cs => some cs
  | _ :: _, [] => none
  | l :: ls, c :: cs => if l = c then dropLit ls cs else none

/-- Parse the body of a JSON string after the opening quote, returning the
decoded characters and the rest of the input.  `\uXXXX` decodes a single
code unit (surrogate pairs are out of scope of the claims). -/
def parseStrChars : Nat → List Char → Option (List Char × List Char)
  | 0, _ => none
  | _ + 1, [] => none
  | fuel + 1, c :: rest =>
    if c = '"' then some ([], rest)
    else if c = '\\' then
      match rest with
      | [] => none
      | e :: rest2 =>
        let esc? : Option Char :=
          if e = '"' then some '"'
          else if e = '\\' then some '\\'
          else if e = '/' then some '/'
          else if e = 'b' then some '\x08'
          else if e = 'f' then some '\x0c'
          else if e = 'n' then some '\n'
          else if e = 'r' then some '\r'
          else if e = 't' then some '\t'
          else none
        match esc? with
        | some ch => (parseStrChars fuel rest2).map (fun p => (ch :: p.1, p.2))
        | none =>
          if e = 'u' then
            match rest2 with
            | a :: b :: c2 :: d :: rest3 =>
              match hexVal? a, hexVal? b, hexVal? c2, hexVal? d with
              | some ha, some hb, some hc, some hd =>
                (parseStrChars fuel rest3).map
                  (fun p => (Char.ofNat (((ha * 16 + hb) * 16 + hc) * 16 + hd) :: p.1, p.2))
              | _, _, _, _ => none
            | _ => none
          else none
    else if c.toNat < 0x20 then none
    else (parseStrChars fuel rest).map (fun p => (c :: p.1, p.2))

/-- Digits of a number prefix. -/
def digitsToNat (ds : List Char) : Nat :=
  ds.foldl (fun acc d => acc * 10 + (d.toNat - '0'.toNat)) 0

mutual

/-- Recursive-descent JSON value parser (fuel bounds recursion depth; the
callers supply more fuel than any input can consume). -/
def parseJson : Nat → List Char → Option (Json × List Char)
  | 0, _ => none
  | _ + 1, [] => none
  | fuel + 1, c :: rest =>
    if c = 'n' then (dropLit ['u', 'l', 'l'] rest).map (fun r => (Json.null, r))
    else if c = 't' then (dropLit ['r', 'u', 'e'] rest).map (fun r => (Json.bool true, r))
    else if c = 'f' then (dropLit ['a', 'l', 's', 'e'] rest).map (fun r => (Json.bool false, r))
    else if c = '"' then
      (parseStrChars (rest.length + 1) rest).map (fun p => (Json.str (String.mk p.1), p.2))
    else if c = '[' then
      match skipWs rest with
      | ']' :: r => some (Json.arr [], r)
      | r => (parseArrItems fuel r).map (fun p => (Json.arr p.1, p.2))
    else if c = '\x7b' then
      match skipWs rest with
      | '\x7d' :: r => some (Json.obj [], r)
      | r => (parseObjItems fuel r).map (fun p => (Json.obj p.1, p.2))
    else if c = '-' then
      match rest with
      | d :: _ =>
        if d.isDigit then
          let ds := (c :: rest).drop 1 |>.takeWhile Char.isDigit
          let after := rest.dropWhile Char.isDigit
          if ds.length > 1 && ds.headD '0' = '0' then none
          else
            match after with
            | '.' :: _ => none
            | 'e' :: _ => none
            | 'E' :: _ => none
            | _ => some (Json.num (-(Int.ofNat (digitsToNat ds))), after)
        else none
      | [] => none
    else if c.isDigit then
      let ds := (c :: rest).takeWhile Char.isDigit
      let after := (c :: rest).dropWhile Char.isDigit
      if ds.length > 1 && ds.headD '0' = '0' then none
      else
        match after with
        | '.' :: _ => none
        | 'e' :: _ => none
        | 'E' :: _ => none
        | _ => some (Json.num (Int.ofNat (digitsToNat ds)), after)
    else none

/-- Parse the items of a non-empty JSON array, positioned at the first item. -/
def parseArrItems : Nat → List Char → Option (List Json × List Char)
  | 0, _ => none
  | fuel + 1, cs =>
    match parseJson fuel cs with
    | none => none
    | some (v, rest) =>
      match skipWs rest with
      | ',' :: r => (parseArrItems fuel (skipWs r)).map (fun p => (v :: p.1, p.2))
      | ']' :: r => some ([v], r)
      | _ => none

/-- Parse the members of a non-empty JSON object, positioned at the first key. -/
def parseObjItems : Nat → List Char → Option (List (String × Json) × List Char)
  | 0, _ => none
  | fuel + 1, cs =>
    match cs with
    | '"' :: rest =>
      match parseStrChars (rest.length + 1) rest with
      | none => none
      | some (key, rest2) =>
        match skipWs rest2 with
        | ':' :: rest3 =>
          match parseJson fuel (skipWs rest3) with
          | none => none
          | some (v, rest4) =>
            match skipWs rest4 with
            | ',' :: r => (parseObjItems fuel (skipWs r)).map
                (fun p => ((String.mk key, v) :: p.1, p.2))
            | '\x7d' :: r => some ([(String.mk key, v)], r)
            | _ => none
        | _ => none
    | _ => none

end

/-- Python `json.loads`: parse one value, require only whitespace after it. -/
def jsonLoads (s : String) : Option Json :=
  match parseJson (2 * s.data.length + 8) (skipWs s.data) with
  | some (j, rest) => if (skipWs rest).isEmpty then some j else none
  | none => none

/-! ## Response cleaning (`initial_research_node.py`)

`_parse_and_validate_execution_plan` lines 266-290 and
`_parse_and_validate_response` lines 541-548. -/

/-- Markdown-fence cleaning of the Strategic Planner response: strip, drop a
leading <three backticks>json fence, drop a leading bare fence, drop a trailing fence,
strip, then re-slice from the first `[` to the last `]` when both exist in
order, and strip again. -/
def cleanPlannerResponse (raw : String) : String :=
  let c := pyStrip raw
  let c := if strStartsB c "```json" then String.mk (c.data.drop 7) else c
  let c := if strStartsB c "```" then String.mk (c.data.drop 3) else c
  let c := if strEndsB c "```" then String.mk (c.data.take (c.data.length - 3)) else c
  let c := pyStrip c
  let cs := c.data
  let c :=
    match findIdx? cs '[', rfindIdx? cs ']' with
    | some i, some j => if i < j then String.mk ((cs.drop i).take (j + 1 - i)) else c
    | _, _ => c
  pyStrip c

/-- Markdown-fence cleaning of the Knowledge Synthesizer response: strip,
drop a leading <three backticks>json fence (a bare fence is not handled here), drop a
trailing fence, strip. -/
def cleanSynthResponse (raw : String) : String :=
  let c := pyStrip raw
  let c := if strStartsB c "```json" then String.mk (c.data.drop 7) else c
  let c := if strEndsB c "```" then String.mk (c.data.take (c.data.length - 3)) else c
  pyStrip c

/-! ## Data model (`context_assembler.py`, `models/state.py`)

Optional fields model Python dict entries read through `.get` with a
default; a `none` stands for a missing key. -/

/-- An existing-knowledge entry (a book summary dict). -/
structure Book where
  title : Option String
  topic : Option String
  summary : Option String

/-- A user-provided resource dict (`title`/`type`). -/
structure Resource where
  title : Option String
  rtype : Option String

/-- A goal dict from `goals.current_goals`; the synthesizer indexes these
four fields directly, so they are required. -/
structure Goal where
  primary_goal : String
  specific_outcome : String
  target_timeline : String
  success_metrics : List String

/-- `learning_profile.learning_style` of a rich persona. -/
structure LearningStyle where
  explanation_preference : String
  example_types : List String
  visual_preferences : List String
  content_structure : String

/-- One value of `knowledge_foundation.core_expertise`: `level` is read both
via `v["level"]` (required, synthesizer) and `.get("level", "unknown")`
(planner), `confidence` via `.get("confidence", 0)` / `.get("confidence", "?")`. -/
structure ExpertiseDetails where
  level : Option String
  confidence : Option Int

/-- Profile dict without the rich-persona keys (`goals`, `learning_profile`),
e.g. `MOCK_USER_PROFILE`; every field is read through `.get`. -/
structure SimpleProfile where
  name : Option String
  user_id : Option String
  learning_style : Option String
  content_format : Option String
  content_depth : Option String

/-- Rich persona dict (shape of `get_hardcoded_sonu_persona`): has `goals`,
`learning_profile`, `knowledge_foundation`; top-level `name`,
`learning_style` and `content_preferences` may still be absent. -/
structure RichPersona where
  name : Option String
  user_id : Option String
  top_learning_style : Option String
  content_format : Option String
  content_depth : Option String
  current_goals : List Goal
  learning_style : LearningStyle
  core_expertise : List (String × ExpertiseDetails)
  specific_gaps : List String
  rag_existing_books_summary : Option String

/-- A user profile is either a plain dict or a rich persona; the source
branches on `"goals" in user_profile and "learning_profile" in user_profile`
(and per-helper on `"knowledge_foundation"`), which this tag decides. -/
inductive UserProfile where
  | simple : SimpleProfile → UserProfile
  | rich : RichPersona → UserProfile

/-- `MOCK_USER_PROFILE` from `context_assembler.py`. -/
def MOCK_USER_PROFILE : UserProfile :=
  .simple
    { name := some "Alice"
      user_id := some "user_123"
      learning_style := some "simple explanation, rich examples and analogies with real world applications and mermaid diagrams and mindmaps"
      content_format := some "markdown"
      content_depth := some "comprehensive" }

/-- `MOCK_BOOK_SUMMARIES` from `context_assembler.py`. -/
def MOCK_BOOK_SUMMARIES : List Book :=
  [ { title := some "Intro to AI", topic := some "AI",
      summary := some "A beginner\x27s guide to AI." },
    { title := some "AI evals", topic := some "AI evals",
      summary := some "Overview of evaluation methods in AI." } ]

/-- `MOCK_USER_RESOURCES` from `context_assembler.py`. -/
def MOCK_USER_RESOURCES : List Resource := []

/-- The intent-classification result; `assemble_context` only reads its
`topic` attribute/key. -/
structure IntentResult where
  topic : Option String

/-- The assembler `raw_context` dict after `assemble_context` (the
`user_feedback`/`toc_feedback` placeholders are always `None` and carry no
behavior). -/
structure RawContext where
  user_profile : UserProfile
  topic_context : Option String
  existing_knowledge : List Book
  resource_context : List Resource

/-- `ContextAssembler.assemble_context`: extracts the topic from the intent
result and substitutes mock data for falsy profile/book/resource inputs
(`x or MOCK`, so both `None` and `[]` fall back to the mocks). -/
def assemble_context (user_profile : Option UserProfile)
    (intent_result : Option IntentResult)
    (existing_books : Option (List Book))
    (user_resources : Option (List Resource)) : RawContext :=
  let topic_context :=
    match intent_result with
    | none => none
    | some ir => ir.topic
  { user_profile := user_profile.getD MOCK_USER_PROFILE
    topic_context := topic_context
    existing_knowledge := pyOrList existing_books MOCK_BOOK_SUMMARIES
    resource_context := pyOrList user_resources MOCK_USER_RESOURCES }

/-- `raw_context.get("topic_context", "Unknown Topic")` as used by both
agents: an unassembled context (an empty `raw_context` dict, modelled `none`) yields
the default string, an assembled one yields the stored topic, which may be
Python `None` (`none` here) — the default does not fire for a
present-but-`None` value. -/
def rawTopicGet (rc : Option RawContext) : Option String :=
  match rc with
  | none => some "Unknown Topic"
  | some c => c.topic_context

/-! ## Assembler formatting helpers (`context_assembler.py`) -/

/-- `_summarize_existing_knowledge`: up to 3 entries rendered as
title/topic/summary lines joined by a semicolon separator, or the default
text when the list is empty. -/
def summarize_existing_knowledge (existing_knowledge : List Book) : String :=
  if existing_knowledge.isEmpty then "No prior books found on this topic."
  else
    joinWith "; " ((existing_knowledge.take 3).map (fun b =>
      "\x27" ++ b.title.getD "Unknown" ++ "\x27 (Topic: " ++ b.topic.getD "General"
        ++ ") - " ++ b.summary.getD "No summary available"))

/-- `_generate_knowledge_bridges`: one bridge per expertise entry with
confidence at least 6, phrased as the title-cased domain followed by
` to ` and the target domain; note the
caller passes the literal `"AI"` as `target_domain`. -/
def generate_knowledge_bridges (core_expertise : List (String × ExpertiseDetails))
    (target_domain : String) : String :=
  let bridges := core_expertise.filterMap (fun e =>
    if 6 ≤ e.2.confidence.getD 0 then
      some (pyTitle (pyReplaceUnderscore e.1) ++ " to " ++ target_domain)
    else none)
  if bridges.isEmpty then "General knowledge to " ++ target_domain
  else joinWith ", " bridges

/-- `_format_user_profile_summary` (top-level `.get` reads work on both
profile shapes). -/
def format_user_profile_summary (up : UserProfile) : String :=
  let (name, uid, ls) :=
    match up with
    | .simple p => (p.name, p.user_id, p.learning_style)
    | .rich p => (p.name, p.user_id, p.top_learning_style)
  "Name: " ++ name.getD "User" ++ " (ID: " ++ uid.getD "unknown"
    ++ "), Learning Style: " ++ ls.getD "Not specified"

/-- `_format_learning_preferences`. -/
def format_learning_preferences (up : UserProfile) : String :=
  let (ls, fmt, depth) :=
    match up with
    | .simple p => (p.learning_style, p.content_format, p.content_depth)
    | .rich p => (p.top_learning_style, p.content_format, p.content_depth)
  "Style: " ++ ls.getD "comprehensive with practical examples"
    ++ ", Format: " ++ fmt.getD "markdown" ++ ", Depth: " ++ depth.getD "comprehensive"

/-- `_format_current_expertise`: detailed rendering for a rich persona
(`knowledge_foundation.core_expertise` present), generic text otherwise. -/
def format_current_expertise (up : UserProfile) : String :=
  match up with
  | .rich p =>
    joinWith "; " (p.core_expertise.map (fun e =>
      pyTitle (pyReplaceUnderscore e.1) ++ ": " ++ e.2.level.getD "unknown"
        ++ " (confidence: " ++ (match e.2.confidence with
                                | some n => toString n
                                | none => "?") ++ "/10)"))
  | .simple _ => "General learning background and experience"

/-- `_format_knowledge_gaps`. -/
def format_knowledge_gaps (up : UserProfile) : String :=
  match up with
  | .rich p =>
    if p.specific_gaps.isEmpty then "Knowledge gaps to be identified"
    else joinWith "; " p.specific_gaps
  | .simple _ => "Fundamental concepts and practical applications"

/-- `_format_goals_timeline`: the rich path indexes `current_goals[0]`
(an `IndexError` — modelled `none` — when the list is empty); the simple
path synthesizes a goal from the topic, with `topic or "this topic"`. -/
def format_goals_timeline (rc : RawContext) : Option String :=
  match rc.user_profile with
  | .rich p =>
    match p.current_goals with
    | [] => none
    | goal :: _ =>
      some ("Goal: " ++ goal.primary_goal ++ ", Timeline: " ++ goal.target_timeline)
  | .simple _ =>
    some ("Goal: Learn " ++ pyOr rc.topic_context "this topic"
      ++ " effectively, Timeline: 3-6 months")

/-- `_format_user_resources`: up to 3 resources, each rendered as a quoted
title followed by its parenthesized type. -/
def format_user_resources (user_resources : List Resource) : String :=
  if user_resources.isEmpty then "No user-provided resources"
  else
    joinWith "; " ((user_resources.take 3).map (fun r =>
      "\x27" ++ r.title.getD "Unnamed Resource" ++ "\x27 (" ++ r.rtype.getD "unknown type" ++ ")"))

/-- The named values substituted into `STRATEGIC_PLANNING_PROMPT` by
`_populate_strategic_planner_prompt`. -/
structure PlannerContext where
  learning_topic : String
  user_profile_summary : String
  learning_preferences : String
  current_expertise : String
  knowledge_gaps : String
  goals_timeline : String
  user_resources : String

/-- The `formatted_context` dict construction of
`_populate_strategic_planner_prompt` (context_assembler.py lines 159-167),
BEFORE the final template rendering: `none` when building a dict value
raises (a rich persona with no current goal).  The subsequent
`STRATEGIC_PLANNING_PROMPT.format(**formatted_context)` call is modelled
separately by `populate_strategic_planner_prompt` below, because it raises
for every context. -/
def populate_strategic_planner_context (rc : RawContext) : Option PlannerContext :=
  match format_goals_timeline rc with
  | none => none
  | some gt =>
    some
      { learning_topic := pyOr rc.topic_context "Unknown Topic"
        user_profile_summary := format_user_profile_summary rc.user_profile
        learning_preferences := format_learning_preferences rc.user_profile
        current_expertise := format_current_expertise rc.user_profile
        knowledge_gaps := format_knowledge_gaps rc.user_profile
        goals_timeline := gt
        user_resources := format_user_resources rc.resource_context }

/-- The placeholder names occurring in `STRATEGIC_PLANNING_PROMPT`
(prompts/strategic_planner.py; the doubled braces of its JSON examples are
literal braces, not placeholders).  Note `user_resources_summary`. -/
def STRATEGIC_PLANNING_PROMPT_placeholders : List String :=
  ["user_resources_summary", "user_profile_summary", "learning_topic",
   "current_expertise", "learning_preferences", "goals_timeline"]

/-- The keys of the `formatted_context` dict supplied to `.format` by
`_populate_strategic_planner_prompt`.  It supplies `user_resources` — not
the `user_resources_summary` the template requires. -/
def strategicPlannerContextKeys : List String :=
  ["learning_topic", "user_profile_summary", "learning_preferences",
   "current_expertise", "knowledge_gaps", "goals_timeline", "user_resources"]

/-- The whole of `_populate_strategic_planner_prompt`: build
`formatted_context`, then render
`STRATEGIC_PLANNING_PROMPT.format(**formatted_context)`.  Python `.format`
raises `KeyError` when a template placeholder is not among the supplied
keyword arguments (extra keys such as `knowledge_gaps` are ignored).  The
template requires `user_resources_summary` while the assembler supplies
`user_resources`, so the render raises for EVERY context and this function
is constantly `none`: the caller `planner_agent` always lands in its
`except` block. -/
def populate_strategic_planner_prompt (rc : RawContext) : Option PlannerContext :=
  match populate_strategic_planner_context rc with
  | none => none
  | some pc =>
    if STRATEGIC_PLANNING_PROMPT_placeholders.all
        (fun k => strategicPlannerContextKeys.contains k) then
      some pc
    else none

/-- The named values substituted into `PERSONALIZED_TOC_PROMPT` by
`_populate_knowledge_synthesizer_prompt`. -/
structure SynthContext where
  learning_topic : String
  primary_goal : String
  specific_outcome : String
  target_timeline : String
  success_metrics : String
  explanation_preference : String
  example_types : String
  visual_preferences : String
  content_structure : String
  core_expertise : String
  knowledge_bridges : String
  specific_gaps : String
  rag_existing_books_summary : String
  industry_benchmarks : String
  current_trends : String
  expert_recommendations : String
deriving Inhabited

/-- `_populate_knowledge_synthesizer_prompt`, up to the final template
rendering.  The rich branch is taken when the profile has `goals` and
`learning_profile`; it indexes `current_goals[0]` and every expertise
`v["level"]` directly, so a missing goal or level raises (`none`).  Note
the knowledge bridges are computed with the literal target `"AI"`, not the
learning topic. -/
def populate_knowledge_synthesizer_context (rc : RawContext) : Option SynthContext :=
  let learning_topic := pyOr rc.topic_context "Unknown Topic"
  match rc.user_profile with
  | .rich p =>
    match p.current_goals with
    | [] => none
    | goal :: _ =>
      if p.core_expertise.any (fun e => e.2.level.isNone) then none
      else
        some
          { learning_topic := learning_topic
            primary_goal := goal.primary_goal
            specific_outcome := goal.specific_outcome
            target_timeline := goal.target_timeline
            success_metrics := joinWith ", " goal.success_metrics
            explanation_preference := p.learning_style.explanation_preference
            example_types := joinWith ", " p.learning_style.example_types
            visual_preferences := joinWith ", " p.learning_style.visual_preferences
            content_structure := p.learning_style.content_structure
            core_expertise := joinWith "; " (p.core_expertise.map (fun e =>
              e.1 ++ ": " ++ e.2.level.getD "" ++ " ("
                ++ (match e.2.confidence with
                    | some n => toString n
                    | none => "?") ++ "/10)"))
            knowledge_bridges := generate_knowledge_bridges p.core_expertise "AI"
            specific_gaps := joinWith ", " p.specific_gaps
            rag_existing_books_summary :=
              p.rag_existing_books_summary.getD
                (summarize_existing_knowledge rc.existing_knowledge)
            industry_benchmarks := "AI product management curriculum from top universities."
            current_trends := "Emphasis on practical AI evaluation, LLM safety, and real-world case studies."
            expert_recommendations := "Follow learning paths from leading AI PMs and product teams." }
  | .simple _ =>
    some
      { learning_topic := learning_topic
        primary_goal := "Learn " ++ learning_topic ++ " effectively"
        specific_outcome := "Gain practical knowledge in " ++ learning_topic
        target_timeline := "3-6 months"
        success_metrics := "Understand core concepts, Apply " ++ learning_topic
          ++ " in practice, Build confidence"
        explanation_preference := "clear explanations with rich context"
        example_types := "real-world applications, practical examples, case studies"
        visual_preferences := "diagrams, mindmaps, flowcharts"
        content_structure := "start basic, build to comprehensive understanding"
        core_expertise := "General knowledge and learning experience"
        knowledge_bridges := "Existing knowledge to " ++ learning_topic
        specific_gaps := "Fundamental concepts in " ++ learning_topic
        rag_existing_books_summary := summarize_existing_knowledge rc.existing_knowledge
        industry_benchmarks := "Standard curriculum for " ++ learning_topic ++ "."
        current_trends := "Current best practices and trends in " ++ learning_topic ++ "."
        expert_recommendations := "Follow learning paths recommended by "
          ++ learning_topic ++ " experts." }

/-! ## Strategic Planner (`initial_research_node.py`) -/

/-- Does this agent-plan dict name the knowledge synthesizer?
(`agent_plan["child_agent_name"] == "knowledge_synthesizer"`). -/
def isKnowledgeSynthesizer (p : Json) : Bool :=
  match p.lookup "child_agent_name" with
  | some (.str s) => s == "knowledge_synthesizer"
  | _ => false

/-- Does this agent-plan dict name the intelligence gatherer? -/
def isIntelligenceGatherer (p : Json) : Bool :=
  match p.lookup "child_agent_name" with
  | some (.str s) => s == "intelligence_gatherer"
  | _ => false

/-- `agent_plan.get("activation", False)` is truthy. -/
def activationTruthy (p : Json) : Bool :=
  ((p.lookup "activation").getD (.bool false)).pyTruthy

/-- `agent_plan.get("activation", ...)` is the boolean literal `true`
(what "activation == true" means; the validator only checks truthiness). -/
def activationIsLitTrue (p : Json) : Bool :=
  match p.lookup "activation" with
  | some (.bool b) => b
  | _ => false

/-- The tasks of an agent plan `research_plan` array (empty for a missing
or non-array value; only read on plans whose `research_plan` was validated
to be an array, and in claim statements). -/
def tasksOf (p : Json) : List Json :=
  match p.lookup "research_plan" with
  | some (.arr ts) => ts
  | _ => []

/-- Task-priority validation:
`task["task_priority"] not in ["critical", "high", "medium", "low"]` raises.
A non-string value compares unequal to every entry. -/
def validTaskPriority (t : Json) : Bool :=
  match t.lookup "task_priority" with
  | some (.str p) => ["critical", "high", "medium", "low"].contains p
  | _ => false

/-- Task validation: the five required fields must be present and the
priority must be in the enum.  A non-dict task always errors in the source
(`field not in task` / `task["task_priority"]` raise on non-dicts before
any success can be reached), matching `false` here. -/
def validTask (t : Json) : Bool :=
  t.isObj &&
  (["task_name", "task_status", "task_priority", "expected_outcome",
    "user_resource_connection"].all (fun f => (t.lookup f).isSome)) &&
  validTaskPriority t

/-- Per-agent-plan validation from `_parse_and_validate_execution_plan`:
the three required fields, truthy activation for every
`knowledge_synthesizer` entry, an array `research_plan`, and valid tasks.
A non-dict element always errors in the source (membership tests or
indexing raise), matching `false` here. -/
def validAgentPlan (p : Json) : Bool :=
  p.isObj &&
  (["child_agent_name", "activation", "research_plan"].all
    (fun f => (p.lookup f).isSome)) &&
  (!(isKnowledgeSynthesizer p) || activationTruthy p) &&
  (match p.lookup "research_plan" with
   | some (.arr tasks) => tasks.all validTask
   | _ => false)

/-- Whole-array validation: every plan valid and a `knowledge_synthesizer`
entry present. -/
def validAgentPlans (plans : List Json) : Bool :=
  plans.all validAgentPlan && plans.any isKnowledgeSynthesizer

/-- `_parse_and_validate_execution_plan`: fence-cleanated response, parsed
as JSON, required to be an array, fully validated; any parse or validation
failure raises `ValueError` in the source (`none` here).  On success the
source wraps the original array with a fresh `plan_id`/`created_at`, which
`planner_agent` models explicitly. -/
def parse_and_validate_execution_plan (raw : String) : Option (List Json) :=
  match jsonLoads (cleanPlannerResponse raw) with
  | some (.arr plans) => if validAgentPlans plans then some plans else none
  | _ => none

/-- The `fallback_agent_plans` array of `_create_fallback_execution_plan`:
three topic-templated knowledge-synthesizer tasks at priorities
critical/high/medium, and a deactivated intelligence gatherer with one
placeholder task.  `topic` is the raw `topic_context` value; Python renders
`None` as `"None"` inside the f-strings. -/
def fallbackAgentPlans (topic : Option String) : List Json :=
  let t := pyShow topic
  [ Json.obj
      [ ("child_agent_name", Json.str "knowledge_synthesizer"),
        ("activation", Json.bool true),
        ("research_plan", Json.arr
          [ Json.obj
              [ ("task_name", Json.str ("Generate comprehensive personalized ToC for " ++ t)),
                ("task_status", Json.str "pending"),
                ("task_priority", Json.str "critical"),
                ("expected_outcome", Json.str ("Complete table of contents covering " ++ t
                  ++ " fundamentals and applications")),
                ("user_resource_connection", Json.str "Build foundation that complements any existing user knowledge") ],
            Json.obj
              [ ("task_name", Json.str ("Identify prerequisite concepts for " ++ t)),
                ("task_status", Json.str "pending"),
                ("task_priority", Json.str "high"),
                ("expected_outcome", Json.str ("Clear understanding of what knowledge is needed before learning " ++ t)),
                ("user_resource_connection", Json.str "Ensure learning path builds on user\x27s current expertise level") ],
            Json.obj
              [ ("task_name", Json.str ("Create practical application roadmap for " ++ t)),
                ("task_status", Json.str "pending"),
                ("task_priority", Json.str "medium"),
                ("expected_outcome", Json.str ("Actionable projects and exercises for applying " ++ t ++ " knowledge")),
                ("user_resource_connection", Json.str "Connect theoretical concepts to user\x27s practical goals") ] ]) ],
    Json.obj
      [ ("child_agent_name", Json.str "intelligence_gatherer"),
        ("activation", Json.bool false),
        ("research_plan", Json.arr
          [ Json.obj
              [ ("task_name", Json.str "No intelligence gathering needed for fallback plan"),
                ("task_status", Json.str "pending"),
                ("task_priority", Json.str "low"),
                ("expected_outcome", Json.str "Intelligence gatherer not activated in fallback mode"),
                ("user_resource_connection", Json.str "Fallback relies on existing knowledge synthesis only") ] ]) ] ]

/-- The `execution_plan` dict assembled by the planner.  `learning_topic`
is added only on the success path (outer `none` when the key is absent,
as in the fallback dict). -/
structure ExecutionPlan where
  plan_id : String
  agent_plans : List Json
  created_at : String
  learning_topic : Option (Option String)

/-- Return value of `planner_agent`. -/
structure PlannerResult where
  execution_plan : ExecutionPlan
  planning_success : Bool

/-- `planner_agent`.  `rc` is the assembler `raw_context` (`none` = not
assembled), `response` the generation-service outcome (`none` = the call
raised), `uuidHex`/`now` the `uuid.uuid4().hex` and `datetime.now()` values
drawn during the run.  Every exception inside the `try` — including the
`RuntimeError` raised for an unassembled context, despite the "Raises"
section of the docstring — is caught by the blanket `except`, which re-reads the
topic with `raw_context.get("topic_context", "Unknown Topic")` and returns
the fallback plan.  Since `populate_strategic_planner_prompt` raises for
every context (missing `user_resources_summary` template key), the invoke,
parse and validate steps below it are dead code in the program: every real
call returns the fallback. -/
def planner_agent (rc : Option RawContext) (response : Option String)
    (uuidHex now : String) : PlannerResult :=
  let fallback : PlannerResult :=
    { execution_plan :=
        { plan_id := "fallback_" ++ String.mk (uuidHex.data.take 8)
          agent_plans := fallbackAgentPlans (rawTopicGet rc)
          created_at := now
          learning_topic := none }
      planning_success := false }
  match rc with
  | none => fallback
  | some ctx =>
    match populate_strategic_planner_prompt ctx with
    | none => fallback
    | some _ =>
    match response with
    | none => fallback
    | some s =>
      match parse_and_validate_execution_plan s with
      | none => fallback
      | some plans =>
        { execution_plan :=
            { plan_id := "plan_" ++ String.mk (uuidHex.data.take 8)
              agent_plans := plans
              created_at := now
              learning_topic := some ctx.topic_context }
          planning_success := true }

/-! ## Knowledge Synthesizer (`initial_research_node.py`) -/

/-- A chapter of `PersonalizedBookStructure` (`models/state.py`).  The
TypedDicts perform no runtime coercion, so the parsed path stores whatever
JSON values the fields held. -/
structure BookChapter where
  chapter_number : Json
  title : Json
  summary : Json
  personalization_rationale : Json

/-- `PersonalizedBookStructure` (`models/state.py`). -/
structure PersonalizedBookStructure where
  title : Json
  introduction : Json
  chapters : List BookChapter

/-- Return value of `generate_toc` (a dict with the single key
`book_structure`). -/
structure TocResult where
  book_structure : PersonalizedBookStructure

/-- Chapter validation of `_parse_and_validate_response`: the four fields
must be present (a non-dict chapter errors in the source — membership tests
or indexing raise — matching `false`). -/
def validChapter (c : Json) : Bool :=
  c.isObj &&
  (["chapter_number", "title", "summary", "personalization_rationale"].all
    (fun f => (c.lookup f).isSome))

/-- `_parse_and_validate_response`: fence-cleaned response parsed as JSON;
requires the three top-level fields, a non-empty chapter list, and the four
fields in every chapter; builds the typed structure.  Any failure raises
`ValueError` in the source (`none` here). -/
def parse_and_validate_response (raw : String) : Option PersonalizedBookStructure :=
  match jsonLoads (cleanSynthResponse raw) with
  | none => none
  | some parsed =>
    match parsed.lookup "title", parsed.lookup "introduction", parsed.lookup "chapters" with
    | some title, some introduction, some (.arr chapters) =>
      if chapters.isEmpty then none
      else if chapters.all validChapter then
        some
          { title := title
            introduction := introduction
            chapters := chapters.map (fun c =>
              { chapter_number := (c.lookup "chapter_number").getD .null
                title := (c.lookup "title").getD .null
                summary := (c.lookup "summary").getD .null
                personalization_rationale :=
                  (c.lookup "personalization_rationale").getD .null }) }
      else none
    | _, _, _ => none

/-- The structure built by `_create_fallback_response`: topic-templated title,
introduction and exactly three chapters.  `topic` is the raw
`topic_context` value; Python renders `None` as `"None"`. -/
def create_fallback_response (topic : Option String) : PersonalizedBookStructure :=
  let t := pyShow topic
  { title := Json.str ("Learning " ++ t ++ ": A Personalized Guide")
    introduction := Json.str ("This book is designed to help you learn " ++ t
      ++ " based on your specific background and goals.")
    chapters :=
      [ { chapter_number := Json.num 1
          title := Json.str ("Introduction to " ++ t)
          summary := Json.str ("Fundamental concepts and overview of " ++ t)
          personalization_rationale :=
            Json.str "Starting with basics to build a solid foundation" },
        { chapter_number := Json.num 2
          title := Json.str ("Core Concepts in " ++ t)
          summary := Json.str ("Deep dive into the essential elements of " ++ t)
          personalization_rationale :=
            Json.str "Building on your existing knowledge to accelerate learning" },
        { chapter_number := Json.num 3
          title := Json.str ("Practical Applications of " ++ t)
          summary := Json.str ("Real-world examples and hands-on practice with " ++ t)
          personalization_rationale :=
            Json.str "Connecting theory to practice for immediate application" } ] }

/-! ### Strategic-guidance derivation (`_apply_execution_plan_guidance`) -/

/-- One task as read by the guidance code through `.get` with defaults.
`task_name`, `expected_outcome` and `user_resource_connection` must be JSON
strings when present: a non-string `task_name` raises in the source
(`.lower()`), and non-string values in the other two feed `str()`
renderings or `TypeError`s that the claims do not exercise, so extraction
reports an error (`none`) for them; `task_priority` keeps its raw JSON
value exactly as the source does (default `"medium"`). -/
structure GTask where
  task_name : String
  task_priority : Json
  expected_outcome : String
  user_resource_connection : String

/-- Read one `research_plan` element into a `GTask`; `none` models a raised
exception (non-dict task: `.get` on a non-dict raises). -/
def toGTask (t : Json) : Option GTask :=
  if !t.isObj then none
  else
    match t.lookup "task_name", t.lookup "expected_outcome",
        t.lookup "user_resource_connection" with
    | some (.str name), some (.str out), some (.str conn) =>
      some ⟨name, (t.lookup "task_priority").getD (.str "medium"), out, conn⟩
    | none, some (.str out), some (.str conn) =>
      some ⟨"", (t.lookup "task_priority").getD (.str "medium"), out, conn⟩
    | some (.str name), none, some (.str conn) =>
      some ⟨name, (t.lookup "task_priority").getD (.str "medium"), "", conn⟩
    | some (.str name), some (.str out), none =>
      some ⟨name, (t.lookup "task_priority").getD (.str "medium"), out, ""⟩
    | none, none, some (.str conn) =>
      some ⟨"", (t.lookup "task_priority").getD (.str "medium"), "", conn⟩
    | none, some (.str out), none =>
      some ⟨"", (t.lookup "task_priority").getD (.str "medium"), out, ""⟩
    | some (.str name), none, none =>
      some ⟨name, (t.lookup "task_priority").getD (.str "medium"), "", ""⟩
    | none, none, none =>
      some ⟨"", (t.lookup "task_priority").getD (.str "medium"), "", ""⟩
    | _, _, _ => none

/-- Is the task priority the string `"critical"`? -/
def GTask.isCritical (gt : GTask) : Bool :=
  match gt.task_priority with
  | .str s => s == "critical"
  | _ => false

/-- Is the task priority the string `"high"`? -/
def GTask.isHigh (gt : GTask) : Bool :=
  match gt.task_priority with
  | .str s => s == "high"
  | _ => false

/-- The name-colon-outcome entries of the critical group. -/
def criticalEntries (gts : List GTask) : List String :=
  gts.filterMap (fun gt =>
    if gt.isCritical then some (gt.task_name ++ ": " ++ gt.expected_outcome) else none)

/-- The name-colon-outcome entries of the high group. -/
def highEntries (gts : List GTask) : List String :=
  gts.filterMap (fun gt =>
    if gt.isHigh then some (gt.task_name ++ ": " ++ gt.expected_outcome) else none)

/-- Focus-area tags gathered by keyword matching on lower-cased task names,
in source order (a task can contribute up to three tags). -/
def focusAreas (gts : List GTask) : List String :=
  gts.foldl (fun acc gt =>
    let n := pyLower gt.task_name
    let acc := if strHasB n "fundamental" || strHasB n "basic" then acc ++ ["fundamentals"] else acc
    let acc := if strHasB n "practical" || strHasB n "application" then
        acc ++ ["practical_applications"] else acc
    if strHasB n "advanced" || strHasB n "expert" then acc ++ ["advanced_concepts"] else acc) []

/-- `list(set(focus_areas))` — the CPython set order depends on string
hashing; first-occurrence order is used here, and no claim depends on the
order of this line. -/
def dedupKeepFirst (xs : List String) : List String :=
  (xs.foldl (fun acc x => if acc.contains x then acc else acc ++ [x]) [])

/-- Truthy `user_resource_connection` strings, in task order. -/
def userConns (gts : List GTask) : List String :=
  gts.filterMap (fun gt =>
    if gt.user_resource_connection != "" then some gt.user_resource_connection else none)

/-- The quality-standard line scaled by task count. -/
def qualityLine (taskCount : Nat) : String :=
  if 5 ≤ taskCount then
    "**QUALITY STANDARD**: Comprehensive coverage - ensure deep personalization"
  else if 3 ≤ taskCount then
    "**QUALITY STANDARD**: Balanced approach - focus on core concepts with personalization"
  else
    "**QUALITY STANDARD**: Focused approach - prioritize essential concepts"

/-- The four optional leading entries of `guidance_parts` (critical, high,
focus-area and user-resource lines), each present only when its group is
non-empty. -/
def guidanceFront (gts : List GTask) : List String :=
  (if (criticalEntries gts).isEmpty then [] else
    ["**CRITICAL PRIORITIES**: " ++ joinWith "; " (criticalEntries gts)]) ++
  (if (highEntries gts).isEmpty then [] else
    ["**HIGH PRIORITY TASKS**: " ++ joinWith "; " (highEntries gts)]) ++
  (if (focusAreas gts).isEmpty then [] else
    ["**STRATEGIC FOCUS AREAS**: " ++ joinWith ", " (dedupKeepFirst (focusAreas gts))]) ++
  (if (userConns gts).isEmpty then [] else
    ["**USER RESOURCE INTEGRATION**: " ++ joinWith "; " ((userConns gts).take 2)])

/-- The `guidance_parts` list built for the knowledge-synthesizer tasks;
the quality line is always appended last, so the list is never empty and the
final `if guidance_parts else ...` default of the source is unreachable. -/
def guidanceParts (gts : List GTask) : List String :=
  guidanceFront gts ++ [qualityLine gts.length]

/-- Find the first `knowledge_synthesizer` agent plan the way the source
loop does: `agent_plan.get(...)` on a non-dict element raises before the
search can continue (`none` = raise, `some none` = not found). -/
def findKS : List Json → Option (Option Json)
  | [] => some none
  | p :: rest =>
    if !p.isObj then none
    else if isKnowledgeSynthesizer p then some (some p) else findKS rest

/-- `_apply_execution_plan_guidance`: generic sentence when no
`knowledge_synthesizer` plan exists; otherwise the newline-joined guidance
parts.  `none` models an exception escaping this helper (which
`generate_toc` then turns into the fallback): a non-dict in the plan list,
a present non-list `research_plan`, or a task whose relevant fields are not
strings. -/
def apply_execution_plan_guidance (plan : ExecutionPlan) : Option String :=
  match findKS plan.agent_plans with
  | none => none
  | some none =>
    some "**STRATEGIC GUIDANCE**: Use general comprehensive approach for ToC generation"
  | some (some ks) =>
    let research_plan? : Option (List Json) :=
      match ks.lookup "research_plan" with
      | none => some []
      | some (.arr ts) => some ts
      | some _ => none
    match research_plan? with
    | none => none
    | some ts =>
      match ts.mapM toGTask with
      | none => none
      | some gts => some (joinWith "\n" (guidanceParts gts))

/-- `generate_toc`.  All failures inside the `try` — the unassembled
context, a raising prompt population, a raising guidance derivation, the
generation call raising, and parse/validation failure — fall to
`_create_fallback_response` with the `.get`-read topic. -/
def generate_toc (rc : Option RawContext) (execution_plan : Option ExecutionPlan)
    (response : Option String) : TocResult :=
  let topic := rawTopicGet rc
  match rc with
  | none => ⟨create_fallback_response topic⟩
  | some ctx =>
    match populate_knowledge_synthesizer_context ctx with
    | none => ⟨create_fallback_response topic⟩
    | some _ =>
      match (match execution_plan with
             | none => some ""
             | some p => apply_execution_plan_guidance p) with
      | none => ⟨create_fallback_response topic⟩
      | some _ =>
        match response with
        | none => ⟨create_fallback_response topic⟩
        | some s =>
          match parse_and_validate_response s with
          | some b => ⟨b⟩
          | none => ⟨create_fallback_response topic⟩

/-! ## Helper lemmas: substring and suffix facts -/

theorem listStarts_iff (n : List Char) : ∀ h, listStarts n h = true ↔ ∃ t, h = n ++ t := by
  induction n with
  | nil => intro h; simp [listStarts]
  | cons a as ih =>
    intro h
    cases h with
    | nil => simp [listStarts]
    | cons b bs =>
      simp only [listStarts, Bool.and_eq_true, beq_iff_eq, ih, List.cons_append,
        List.cons.injEq]
      constructor
      · rintro ⟨rfl, t, rfl⟩; exact ⟨t, rfl, rfl⟩
      · rintro ⟨t, rfl, rfl⟩; exact ⟨rfl, t, rfl⟩

theorem containsLB_iff (hay n : List Char) :
    containsLB hay n = true ↔ ∃ x y, hay = x ++ n ++ y := by
  induction hay with
  | nil =>
    simp only [containsLB, listStarts_iff]
    constructor
    · rintro ⟨t, ht⟩
      exact ⟨[], t, by simpa using ht⟩
    · rintro ⟨x, y, hxy⟩
      have hx : x = [] := by cases x <;> simp_all
      have hn : n = [] := by subst hx; cases n <;> simp_all
      exact ⟨[], by simp [hn]⟩
  | cons c t ih =>
    simp only [containsLB, Bool.or_eq_true, listStarts_iff, ih]
    constructor
    · rintro (⟨r, hr⟩ | ⟨x, y, hxy⟩)
      · exact ⟨[], r, by simpa using hr⟩
      · exact ⟨c :: x, y, by simp [hxy]⟩
    · rintro ⟨x, y, hxy⟩
      cases x with
      | nil => exact Or.inl ⟨y, by simpa using hxy⟩
      | cons c2 x2 =>
        simp only [List.cons_append, List.cons.injEq] at hxy
        exact Or.inr ⟨x2, y, hxy.2⟩

theorem containsLB_of_parts (x n y : List Char) : containsLB (x ++ n ++ y) n = true :=
  (containsLB_iff _ _).mpr ⟨x, y, rfl⟩

theorem strHasB_of_data {s t : String} (x y : List Char)
    (hs : s.data = x ++ t.data ++ y) : strHasB s t = true := by
  unfold strHasB
  rw [hs]
  exact containsLB_of_parts _ _ _

theorem strHasB_trans {a b c : String} (hab : strHasB a b = true)
    (hbc : strHasB b c = true) : strHasB a c = true := by
  unfold strHasB at *
  obtain ⟨x, y, hxy⟩ := (containsLB_iff _ _).mp hab
  obtain ⟨u, v, huv⟩ := (containsLB_iff _ _).mp hbc
  refine (containsLB_iff _ _).mpr ⟨x ++ u, v ++ y, ?_⟩
  rw [hxy, huv]; simp

theorem strHasB_append_right (a b : String) : strHasB (a ++ b) b = true :=
  strHasB_of_data a.data [] (by simp [String.data_append])

theorem strHasB_append_left (a b : String) : strHasB (a ++ b) a = true :=
  strHasB_of_data [] b.data (by simp [String.data_append])

theorem strHasB_self (a : String) : strHasB a a = true :=
  strHasB_of_data [] [] (by simp)

theorem strHasB_append_of_left {a c : String} (b : String) (h : strHasB a c = true) :
    strHasB (a ++ b) c = true := by
  unfold strHasB at *
  obtain ⟨x, y, hxy⟩ := (containsLB_iff _ _).mp h
  exact (containsLB_iff _ _).mpr ⟨x, y ++ b.data, by simp [String.data_append, hxy]⟩

theorem strHasB_append_of_right {b c : String} (a : String) (h : strHasB b c = true) :
    strHasB (a ++ b) c = true := by
  unfold strHasB at *
  obtain ⟨x, y, hxy⟩ := (containsLB_iff _ _).mp h
  exact (containsLB_iff _ _).mpr ⟨a.data ++ x, y, by simp [String.data_append, hxy]⟩

theorem strHasB_joinWith_of_mem {t : String} (sep : String) :
    ∀ (xs : List String), t ∈ xs → strHasB (joinWith sep xs) t = true := by
  intro xs
  induction xs with
  | nil => intro h; cases h
  | cons x rest ih =>
    intro hmem
    cases rest with
    | nil =>
      have : t = x := by simpa using hmem
      subst this
      simp [joinWith, strHasB_self]
    | cons y ys =>
      rcases List.mem_cons.mp hmem with rfl | hm
      · show strHasB (t ++ sep ++ joinWith sep (y :: ys)) t = true
        exact strHasB_append_of_left _ (strHasB_append_of_left _ (strHasB_self t))
      · show strHasB (x ++ sep ++ joinWith sep (y :: ys)) t = true
        exact strHasB_append_of_right _ (ih hm)

theorem strEndsB_of_data {s t : String} (x : List Char)
    (hs : s.data = x ++ t.data) : strEndsB s t = true := by
  unfold strEndsB
  rw [hs]
  exact (listStarts_iff _ _).mpr ⟨x.reverse, by simp⟩

theorem strEndsB_append_of_right {b t : String} (a : String) (h : strEndsB b t = true) :
    strEndsB (a ++ b) t = true := by
  unfold strEndsB at *
  obtain ⟨r, hr⟩ := (listStarts_iff _ _).mp h
  refine (listStarts_iff _ _).mpr ⟨r ++ a.data.reverse, ?_⟩
  rw [String.data_append, List.reverse_append, hr]
  simp

theorem strEndsB_self (t : String) : strEndsB t t = true :=
  strEndsB_of_data [] (by simp)

theorem strEndsB_joinWith_append (sep t : String) :
    ∀ (xs : List String), strEndsB (joinWith sep (xs ++ [t])) t = true := by
  intro xs
  induction xs with
  | nil => simpa [joinWith] using strEndsB_self t
  | cons x rest ih =>
    cases hrt : rest ++ [t] with
    | nil => exact absurd hrt (by simp)
    | cons y ys =>
      show strEndsB (joinWith sep (x :: (rest ++ [t]))) t = true
      rw [hrt]
      show strEndsB (x ++ sep ++ joinWith sep (y :: ys)) t = true
      rw [← hrt]
      exact strEndsB_append_of_right _ ih

/-! ## Helper lemmas: what validation guarantees -/

theorem parse_execplan_valid {raw : String} {plans : List Json}
    (h : parse_and_validate_execution_plan raw = some plans) :
    validAgentPlans plans = true := by
  unfold parse_and_validate_execution_plan at h
  cases hj : jsonLoads (cleanPlannerResponse raw) with
  | none => rw [hj] at h; cases h
  | some j =>
    rw [hj] at h
    cases j with
    | arr ps =>
      by_cases hv : validAgentPlans ps = true
      · simp only [hv, if_true] at h
        cases h
        exact hv
      · simp only [Bool.not_eq_true] at hv
        simp [hv] at h
    | null => cases h
    | bool b => cases h
    | num n => cases h
    | str s => cases h
    | obj kvs => cases h

theorem validAgentPlans_any_ks {plans : List Json} (h : validAgentPlans plans = true) :
    plans.any isKnowledgeSynthesizer = true := by
  unfold validAgentPlans at h
  simp only [Bool.and_eq_true] at h
  exact h.2

theorem validAgentPlan_activation {p : Json} (h : validAgentPlan p = true)
    (hks : isKnowledgeSynthesizer p = true) : activationTruthy p = true := by
  unfold validAgentPlan at h
  simp only [Bool.and_eq_true] at h
  have h3 := h.1.2
  rw [hks] at h3
  simpa using h3

theorem validAgentPlan_priorities {p : Json} (h : validAgentPlan p = true) :
    (tasksOf p).all validTaskPriority = true := by
  unfold validAgentPlan at h
  simp only [Bool.and_eq_true] at h
  have h4 := h.2
  unfold tasksOf
  cases hrp : p.lookup "research_plan" with
  | none => rw [hrp] at h4; cases h4
  | some v =>
    rw [hrp] at h4
    cases v with
    | arr ts =>
      simp only [List.all_eq_true] at h4 ⊢
      intro t ht
      have hv := h4 t ht
      unfold validTask at hv
      simp only [Bool.and_eq_true] at hv
      exact hv.2
    | null => cases h4
    | bool b => cases h4
    | num n => cases h4
    | str s => cases h4
    | obj kvs => cases h4

/-! ## Claim-level predicates and test fixtures -/

/-- Property P1 of a plan array: a `knowledge_synthesizer` entry exists,
every `knowledge_synthesizer` entry has truthy activation, and every task
of every `research_plan` has a priority in the four-value enum. -/
def planSatisfiesP1 (plans : List Json) : Bool :=
  plans.any isKnowledgeSynthesizer &&
  plans.all (fun p => !(isKnowledgeSynthesizer p) || activationTruthy p) &&
  plans.all (fun p => (tasksOf p).all validTaskPriority)

theorem planSatisfiesP1_of_valid {plans : List Json}
    (h : validAgentPlans plans = true) : planSatisfiesP1 plans = true := by
  unfold planSatisfiesP1
  have hall := (by unfold validAgentPlans at h; simp only [Bool.and_eq_true] at h; exact h.1 :
    plans.all validAgentPlan = true)
  simp only [Bool.and_eq_true, List.all_eq_true]
  refine ⟨⟨validAgentPlans_any_ks h, ?_⟩, ?_⟩
  · intro p hp
    by_cases hks : isKnowledgeSynthesizer p = true
    · simp [hks, validAgentPlan_activation (List.all_eq_true.mp hall p hp) hks]
    · have hf : isKnowledgeSynthesizer p = false := by simpa using hks
      simp [hf]
  · intro p hp
    exact List.all_eq_true.mp (validAgentPlan_priorities (List.all_eq_true.mp hall p hp))

/-- A concrete assembled context: mock profile, topic `"AI"`, mock books,
no resources. -/
def ctx0 : RawContext := assemble_context none (some { topic := some "AI" }) none none

/-- A schema-complete book-structure JSON object. -/
def bookJsonPlain : String :=
  "\x7b\"title\": \"T\", \"introduction\": \"I\", \"chapters\": [\x7b\"chapter_number\": 1, \"title\": \"C1\", \"summary\": \"S\", \"personalization_rationale\": \"R\"\x7d]\x7d"

/-- The same object wrapped in bare (untagged) markdown fences. -/
def bookJsonFenced : String := "```\n" ++ bookJsonPlain ++ "\n```"

/-- A schema-complete execution-plan JSON array. -/
def planJsonPlain : String :=
  "[\x7b\"child_agent_name\": \"knowledge_synthesizer\", \"activation\": true, \"research_plan\": [\x7b\"task_name\": \"T\", \"task_status\": \"pending\", \"task_priority\": \"high\", \"expected_outcome\": \"E\", \"user_resource_connection\": \"U\"\x7d]\x7d, \x7b\"child_agent_name\": \"intelligence_gatherer\", \"activation\": false, \"research_plan\": []\x7d]"

/-- The same array wrapped in bare (untagged) markdown fences. -/
def planJsonFenced : String := "```\n" ++ planJsonPlain ++ "\n```"

theorem planSatisfiesP1_fallback (topic : Option String) :
    planSatisfiesP1 (fallbackAgentPlans topic) = true := rfl

theorem parse_notjson_none : parse_and_validate_execution_plan "not json at all" = none := rfl

theorem populate_strategic_planner_prompt_none (rc : RawContext) :
    populate_strategic_planner_prompt rc = none := by
  unfold populate_strategic_planner_prompt
  cases hpc : populate_strategic_planner_context rc with
  | none => rfl
  | some pc => simp only [hpc]; rfl

theorem planner_agent_always_fallback (rc : Option RawContext) (response : Option String)
    (uuidHex now : String) :
    planner_agent rc response uuidHex now =
      { execution_plan :=
          { plan_id := "fallback_" ++ String.mk (uuidHex.data.take 8)
            agent_plans := fallbackAgentPlans (rawTopicGet rc)
            created_at := now
            learning_topic := none }
        planning_success := false } := by
  unfold planner_agent
  cases rc with
  | none => rfl
  | some ctx => simp only [populate_strategic_planner_prompt_none]

theorem fallback_any_ks_lit_true (topic : Option String) :
    (fallbackAgentPlans topic).any
      (fun p => isKnowledgeSynthesizer p && activationIsLitTrue p) = true := rfl

theorem fallback_all_ks_lit_true (topic : Option String) :
    (fallbackAgentPlans topic).all
      (fun p => !(isKnowledgeSynthesizer p) || activationIsLitTrue p) = true := rfl

theorem fallback_all_priorities (topic : Option String) :
    (fallbackAgentPlans topic).all
      (fun p => (tasksOf p).all validTaskPriority) = true := rfl

/-- C1: for every generation-service output (any returned string, or the
call raising, and any context), `planner_agent` returns a plan in which a
`knowledge_synthesizer` agent plan exists with the boolean activation
literal `true`, every `knowledge_synthesizer` plan has that literal, and
every task of every `research_plan` carries a priority in
critical/high/medium/low; the response `"not json at all"` lands on the
fallback instead of raising (the embedding is total, so no exception
reaches the caller).  The property holds because every call takes the
fallback path: the strategic-planner prompt render raises `KeyError` before
the generation call, so the validated path is unreachable. -/
theorem C1_plan_validity :
    ∀ (rc : Option RawContext) (response : Option String) (uuidHex now : String),
      ((planner_agent rc response uuidHex now).execution_plan.agent_plans.any
        (fun p => isKnowledgeSynthesizer p && activationIsLitTrue p)) = true ∧
      ((planner_agent rc response uuidHex now).execution_plan.agent_plans.all
        (fun p => !(isKnowledgeSynthesizer p) || activationIsLitTrue p)) = true ∧
      ((planner_agent rc response uuidHex now).execution_plan.agent_plans.all
        (fun p => (tasksOf p).all validTaskPriority)) = true ∧
      (planner_agent rc (some "not json at all") uuidHex now).planning_success = false := by
  intro rc response uuidHex now
  simp only [planner_agent_always_fallback]
  exact ⟨fallback_any_ks_lit_true _, fallback_all_ks_lit_true _, fallback_all_priorities _, trivial⟩

/-- C3 (the code, contradicting the claim and the function docstring):
calling `planner_agent` with an unassembled context (an empty `raw_context`)
does NOT propagate the not-assembled `RuntimeError`; the blanket `except`
absorbs it and returns the fallback plan, whose topic is read as
`"Unknown Topic"` by `.get` on the empty dict, with
`planning_success = false`. -/
theorem C3_unassembled_context :
    ∀ (response : Option String) (uuidHex now : String),
      (planner_agent none response uuidHex now).planning_success = false ∧
      (planner_agent none response uuidHex now).execution_plan.agent_plans
        = fallbackAgentPlans (some "Unknown Topic") ∧
      (planner_agent none response uuidHex now).execution_plan.plan_id
        = "fallback_" ++ String.mk (uuidHex.data.take 8) := by
  intro response uuidHex now
  exact ⟨rfl, rfl, rfl⟩

/-- C4 counterexample: two runs of `planner_agent` on the same topic with
the generation service raising both take the fallback path but return
different execution plans — the `plan_id` embeds a fresh
`uuid.uuid4().hex[:8]` — so the fallback plan is not exactly the same
across runs. -/
theorem C4_counterexample :
    (planner_agent (some ctx0) none "aaaaaaaa" "t1").planning_success = false ∧
    (planner_agent (some ctx0) none "bbbbbbbb" "t1").planning_success = false ∧
    (planner_agent (some ctx0) none "aaaaaaaa" "t1").execution_plan.plan_id = "fallback_aaaaaaaa" ∧
    (planner_agent (some ctx0) none "bbbbbbbb" "t1").execution_plan.plan_id = "fallback_bbbbbbbb" ∧
    (planner_agent (some ctx0) none "aaaaaaaa" "t1").execution_plan.plan_id ≠
      (planner_agent (some ctx0) none "bbbbbbbb" "t1").execution_plan.plan_id := by
  refine ⟨by decide, by decide, by decide, by decide, by decide⟩

theorem planner_agent_response_none (ctx : RawContext) (u3 n3 : String) :
    (planner_agent (some ctx) none u3 n3).execution_plan.agent_plans
      = fallbackAgentPlans ctx.topic_context := by
  rw [planner_agent_always_fallback]; rfl

theorem generate_toc_response_none (ctx : RawContext) (ep : Option ExecutionPlan) :
    generate_toc (some ctx) ep none = ⟨create_fallback_response ctx.topic_context⟩ := by
  unfold generate_toc
  cases hsc : populate_knowledge_synthesizer_context ctx with
  | none => simp only [hsc]; rfl
  | some c =>
    simp only [hsc]
    cases ep with
    | none => rfl
    | some p =>
      cases hg : apply_execution_plan_guidance p with
      | none => simp only [hg]; rfl
      | some g => simp only [hg]; rfl

/-- C4 (amended): under a raising generation service the fallback
`agent_plans` array is a pure function of the topic (identical across runs,
with the 3 knowledge-synthesizer tasks at priorities critical/high/medium
and the placeholder intelligence-gatherer task), only `plan_id` and
`created_at` vary per run; and the 3-chapter `generate_toc` fallback
structure is exactly a pure function of the topic. -/
theorem C4_fallback_determinism :
    ∀ (ctx : RawContext) (ep : Option ExecutionPlan) (u n u2 n2 : String),
      (planner_agent (some ctx) none u n).execution_plan.agent_plans
        = (planner_agent (some ctx) none u2 n2).execution_plan.agent_plans ∧
      (planner_agent (some ctx) none u n).execution_plan.agent_plans
        = fallbackAgentPlans ctx.topic_context ∧
      ((fallbackAgentPlans ctx.topic_context).map (fun p =>
          (tasksOf p).map (fun t => (t.lookup "task_priority").getD .null)))
        = [[.str "critical", .str "high", .str "medium"], [.str "low"]] ∧
      ((fallbackAgentPlans ctx.topic_context).map (fun p =>
          (p.lookup "child_agent_name").getD .null))
        = [.str "knowledge_synthesizer", .str "intelligence_gatherer"] ∧
      generate_toc (some ctx) ep none = ⟨create_fallback_response ctx.topic_context⟩ ∧
      (create_fallback_response ctx.topic_context).chapters.length = 3 := by
  intro ctx ep u n u2 n2
  exact ⟨(planner_agent_response_none ctx u n).trans (planner_agent_response_none ctx u2 n2).symm,
    planner_agent_response_none ctx u n, rfl, rfl, generate_toc_response_none ctx ep, rfl⟩

theorem parse_response_len {raw : String} {b : PersonalizedBookStructure}
    (h : parse_and_validate_response raw = some b) : 1 ≤ b.chapters.length := by
  unfold parse_and_validate_response at h
  cases hj : jsonLoads (cleanSynthResponse raw) with
  | none => simp only [hj] at h; cases h
  | some parsed =>
    simp only [hj] at h
    cases ht : parsed.lookup "title" with
    | none => simp only [ht] at h; cases h
    | some title =>
      cases hi : parsed.lookup "introduction" with
      | none => simp only [ht, hi] at h; cases h
      | some jintro =>
        cases hc : parsed.lookup "chapters" with
        | none => simp only [ht, hi, hc] at h; cases h
        | some chv =>
          simp only [ht, hi, hc] at h
          cases chv with
          | arr chapters =>
            by_cases he : chapters.isEmpty = true
            · simp [he] at h
            · have he2 : chapters.isEmpty = false := by simpa using he
              simp only [he2, Bool.false_eq_true, if_false] at h
              by_cases hv : chapters.all validChapter = true
              · simp only [hv, if_true, Option.some.injEq] at h
                have hlen : b.chapters.length = chapters.length := by
                  rw [← h]; simp
                have hne : chapters ≠ [] := by
                  intro hnil; rw [hnil] at he2; simp at he2
                have : 0 < chapters.length := List.length_pos.mpr hne
                omega
              · have hv2 : chapters.all validChapter = false := by simpa using hv
                simp [hv2] at h
          | null => simp only [] at h; cases h
          | bool bb => simp only [] at h; cases h
          | num nn => simp only [] at h; cases h
          | str ss => simp only [] at h; cases h
          | obj oo => simp only [] at h; cases h

theorem parse_response_notjson : parse_and_validate_response "not json at all" = none := rfl

/-- C2: for every generation-service outcome (and any context and plan),
`generate_toc` returns a book structure with at least one chapter (each
chapter carries all four fields by construction of the typed structure,
mirroring the validated or fallback dicts), and the malformed response
`"not json at all"` yields exactly the fallback structure instead of an
exception. -/
theorem C2_structure_validity :
    (∀ (rc : Option RawContext) (ep : Option ExecutionPlan) (response : Option String),
      1 ≤ (generate_toc rc ep response).book_structure.chapters.length) ∧
    (∀ (rc : Option RawContext) (ep : Option ExecutionPlan),
      generate_toc rc ep (some "not json at all")
        = ⟨create_fallback_response (rawTopicGet rc)⟩) := by
  constructor
  · intro rc ep response
    have hfb : ∀ t : Option String, (create_fallback_response t).chapters.length = 3 :=
      fun t => rfl
    unfold generate_toc
    cases rc with
    | none => rw [hfb]; omega
    | some ctx =>
      cases hsc : populate_knowledge_synthesizer_context ctx with
      | none => simp only [hsc]; rw [hfb]; omega
      | some c =>
        simp only [hsc]
        cases ep with
        | none =>
          cases response with
          | none => rw [hfb]; omega
          | some s =>
            cases hp : parse_and_validate_response s with
            | none => simp only [hp]; rw [hfb]; omega
            | some b => simp only [hp]; exact parse_response_len hp
        | some p =>
          cases hg : apply_execution_plan_guidance p with
          | none => simp only [hg]; rw [hfb]; omega
          | some g =>
            simp only [hg]
            cases response with
            | none => rw [hfb]; omega
            | some s =>
              cases hp : parse_and_validate_response s with
              | none => simp only [hp]; rw [hfb]; omega
              | some b => simp only [hp]; exact parse_response_len hp
  · intro rc ep
    unfold generate_toc
    cases rc with
    | none => rfl
    | some ctx =>
      cases hsc : populate_knowledge_synthesizer_context ctx with
      | none => simp only [hsc]
      | some c =>
        simp only [hsc]
        cases ep with
        | none => simp only [parse_response_notjson]
        | some p =>
          cases hg : apply_execution_plan_guidance p with
          | none => simp only [hg]
          | some g => simp only [hg, parse_response_notjson]

theorem fallback_countKS (topic : Option String) :
    (fallbackAgentPlans topic).countP isKnowledgeSynthesizer = 1 := rfl

theorem fallback_countIG (topic : Option String) :
    (fallbackAgentPlans topic).countP isIntelligenceGatherer = 1 := rfl

/-- C6: every execution plan produced by `planner_agent` contains exactly
one agent plan per known agent name — one `knowledge_synthesizer` and one
`intelligence_gatherer`, none missing, none duplicated, and no plan with
any other name.  Every produced plan is the fallback (the strategic-planner
prompt render raises for every context), and the fallback has exactly this
inventory; the validator of the dead success path would not have enforced
it. -/
theorem C6_agent_inventory :
    ∀ (rc : Option RawContext) (response : Option String) (uuidHex now : String),
      ((planner_agent rc response uuidHex now).execution_plan.agent_plans.countP
        isKnowledgeSynthesizer = 1) ∧
      ((planner_agent rc response uuidHex now).execution_plan.agent_plans.countP
        isIntelligenceGatherer = 1) ∧
      ((planner_agent rc response uuidHex now).execution_plan.agent_plans.length = 2) ∧
      ((planner_agent rc response uuidHex now).execution_plan.agent_plans.all
        (fun p => isKnowledgeSynthesizer p || isIntelligenceGatherer p) = true) := by
  intro rc response uuidHex now
  simp only [planner_agent_always_fallback]
  exact ⟨fallback_countKS _, fallback_countIG _, rfl, rfl⟩

/-- C7: for every execution plan whose `knowledge_synthesizer` entry is
found and whose tasks read into guidance tasks, the derived guidance is the
newline-joined parts; when critical tasks exist the guidance contains the
`CRITICAL PRIORITIES` line and that line contains the `expected_outcome` of
each critical task; when truthy `user_resource_connection` strings exist the
guidance contains the `USER RESOURCE INTEGRATION` line holding only the
first two of them; and the guidance always ends with the quality-standard
line, whose wording is comprehensive-coverage for ≥ 5 tasks,
balanced-approach for ≥ 3, and focused-approach otherwise. -/
theorem C7_guidance_extraction :
    ∀ (plan : ExecutionPlan) (ks : Json) (ts : List Json) (gts : List GTask),
      findKS plan.agent_plans = some (some ks) →
      ks.lookup "research_plan" = some (.arr ts) →
      ts.mapM toGTask = some gts →
      apply_execution_plan_guidance plan = some (joinWith "\n" (guidanceParts gts)) ∧
      ((criticalEntries gts).isEmpty = false →
        strHasB (joinWith "\n" (guidanceParts gts))
          ("**CRITICAL PRIORITIES**: " ++ joinWith "; " (criticalEntries gts)) = true) ∧
      (∀ gt ∈ gts, gt.isCritical = true →
        strHasB ("**CRITICAL PRIORITIES**: " ++ joinWith "; " (criticalEntries gts))
          gt.expected_outcome = true) ∧
      ((userConns gts).isEmpty = false →
        strHasB (joinWith "\n" (guidanceParts gts))
          ("**USER RESOURCE INTEGRATION**: " ++ joinWith "; " ((userConns gts).take 2)) = true) ∧
      strEndsB (joinWith "\n" (guidanceParts gts)) (qualityLine gts.length) = true ∧
      (5 ≤ gts.length → qualityLine gts.length
        = "**QUALITY STANDARD**: Comprehensive coverage - ensure deep personalization") ∧
      (3 ≤ gts.length → gts.length < 5 → qualityLine gts.length
        = "**QUALITY STANDARD**: Balanced approach - focus on core concepts with personalization") ∧
      (gts.length < 3 → qualityLine gts.length
        = "**QUALITY STANDARD**: Focused approach - prioritize essential concepts") := by
  intro plan ks ts gts hfind hrp hmap
  refine ⟨?_, ?_, ?_, ?_, ?_, ?_, ?_, ?_⟩
  · unfold apply_execution_plan_guidance
    simp only [hfind, hrp, hmap]
  · intro hce
    refine strHasB_joinWith_of_mem _ _ ?_
    simp [guidanceParts, guidanceFront, hce]
  · intro gt hmem hcrit
    have hentry : (gt.task_name ++ ": " ++ gt.expected_outcome) ∈ criticalEntries gts := by
      unfold criticalEntries
      exact List.mem_filterMap.mpr ⟨gt, hmem, by simp [hcrit]⟩
    have h1 : strHasB (joinWith "; " (criticalEntries gts))
        (gt.task_name ++ ": " ++ gt.expected_outcome) = true :=
      strHasB_joinWith_of_mem _ _ hentry
    have h2 : strHasB (gt.task_name ++ ": " ++ gt.expected_outcome)
        gt.expected_outcome = true := strHasB_append_right _ _
    exact strHasB_append_of_right _ (strHasB_trans h1 h2)
  · intro huc
    refine strHasB_joinWith_of_mem _ _ ?_
    simp [guidanceParts, guidanceFront, huc]
  · exact strEndsB_joinWith_append _ _ _
  · intro h5; simp [qualityLine, h5]
  · intro h3 h5
    have hn5 : ¬ 5 ≤ gts.length := by omega
    simp [qualityLine, hn5, h3]
  · intro h3
    have hn5 : ¬ 5 ≤ gts.length := by omega
    have hn3 : ¬ 3 ≤ gts.length := by omega
    simp [qualityLine, hn5, hn3]

/-- Fixture task for the guidance-extraction witness. -/
def taskW : Json := Json.obj
  [ ("task_name", Json.str "Critical analysis"),
    ("task_status", Json.str "pending"),
    ("task_priority", Json.str "critical"),
    ("expected_outcome", Json.str "X"),
    ("user_resource_connection", Json.str "connA") ]

/-- Fixture knowledge-synthesizer plan for the guidance-extraction witness. -/
def ksW : Json := Json.obj
  [ ("child_agent_name", Json.str "knowledge_synthesizer"),
    ("activation", Json.bool true),
    ("research_plan", Json.arr [taskW]) ]

/-- Fixture execution plan for the guidance-extraction witness. -/
def epW : ExecutionPlan :=
  { plan_id := "plan_w", agent_plans := [ksW], created_at := "t0", learning_topic := none }

/-- Fixture guidance task list for the guidance-extraction witness. -/
def gtsW : List GTask :=
  [{ task_name := "Critical analysis", task_priority := Json.str "critical",
     expected_outcome := "X", user_resource_connection := "connA" }]

/-- C7 witness: a plan with a single critical task with expected outcome
`"X"` — its critical-priorities line contains `"X"`, the guidance ends with
the (focused-approach) quality line, and the guidance derivation succeeds. -/
theorem C7_guidance_extraction_witness :
    strHasB ("**CRITICAL PRIORITIES**: " ++ joinWith "; " (criticalEntries gtsW)) "X" = true ∧
    strEndsB (joinWith "\n" (guidanceParts gtsW)) (qualityLine gtsW.length) = true ∧
    apply_execution_plan_guidance epW = some (joinWith "\n" (guidanceParts gtsW)) := by
  have h := C7_guidance_extraction epW ksW [taskW] gtsW rfl rfl rfl
  refine ⟨?_, h.2.2.2.2.1, h.1⟩
  exact h.2.2.1
    { task_name := "Critical analysis", task_priority := Json.str "critical",
      expected_outcome := "X", user_resource_connection := "connA" }
    (by simp [gtsW]) rfl

theorem strAppend_assoc (a b c : String) : a ++ b ++ c = a ++ (b ++ c) := by
  apply String.ext
  simp [String.data_append]

theorem generate_kb_of_mem {ce : List (String × ExpertiseDetails)} {d : String}
    {det : ExpertiseDetails} (target : String) (hmem : (d, det) ∈ ce)
    (hconf : 6 ≤ det.confidence.getD 0) :
    strHasB (generate_knowledge_bridges ce target)
      (pyTitle (pyReplaceUnderscore d) ++ " to " ++ target) = true := by
  unfold generate_knowledge_bridges
  have hitem : (pyTitle (pyReplaceUnderscore d) ++ " to " ++ target) ∈
      ce.filterMap (fun e =>
        if 6 ≤ e.2.confidence.getD 0 then
          some (pyTitle (pyReplaceUnderscore e.1) ++ " to " ++ target)
        else none) :=
    List.mem_filterMap.mpr ⟨(d, det), hmem, by simp [hconf]⟩
  have hne : (ce.filterMap (fun e =>
      if 6 ≤ e.2.confidence.getD 0 then
        some (pyTitle (pyReplaceUnderscore e.1) ++ " to " ++ target)
      else none)).isEmpty = false := by
    cases hl : ce.filterMap (fun e =>
        if 6 ≤ e.2.confidence.getD 0 then
          some (pyTitle (pyReplaceUnderscore e.1) ++ " to " ++ target)
        else none) with
    | nil => rw [hl] at hitem; cases hitem
    | cons x xs => rfl
  simp only [hne, Bool.false_eq_true, if_false]
  exact strHasB_joinWith_of_mem _ _ hitem

theorem generate_kb_default {ce : List (String × ExpertiseDetails)} (target : String)
    (hfil : (ce.filter (fun e => 6 ≤ e.2.confidence.getD 0)).isEmpty = true) :
    generate_knowledge_bridges ce target = "General knowledge to " ++ target := by
  unfold generate_knowledge_bridges
  have hnil : ce.filterMap (fun e =>
      if 6 ≤ e.2.confidence.getD 0 then
        some (pyTitle (pyReplaceUnderscore e.1) ++ " to " ++ target)
      else none) = [] := by
    rw [List.filterMap_eq_nil_iff]
    intro e he
    have : ¬ (6 ≤ e.2.confidence.getD 0) := by
      intro hge
      have : e ∈ ce.filter (fun e => 6 ≤ e.2.confidence.getD 0) :=
        List.mem_filter.mpr ⟨he, by simpa using hge⟩
      rw [List.isEmpty_iff] at hfil
      rw [hfil] at this
      cases this
    simp [this]
  simp [hnil]

/-- The persona of property P4: expertise Marketing (confidence 8) and Art
(confidence 3). -/
def personaP4 : RichPersona :=
  { name := none
    user_id := some "u1"
    top_learning_style := none
    content_format := none
    content_depth := none
    current_goals := [{ primary_goal := "g", specific_outcome := "o",
                        target_timeline := "tl", success_metrics := ["m"] }]
    learning_style := { explanation_preference := "e", example_types := ["x"],
                        visual_preferences := ["v"], content_structure := "s" }
    core_expertise := [("Marketing", { level := some "expert", confidence := some 8 }),
                       ("Art", { level := some "novice", confidence := some 3 })]
    specific_gaps := ["gap"]
    rag_existing_books_summary := none }

/-- Assembled context with the P4 persona and a given topic. -/
def ctxP4 (tc : Option String) : RawContext :=
  { user_profile := .rich personaP4, topic_context := tc,
    existing_knowledge := MOCK_BOOK_SUMMARIES, resource_context := [] }

/-- C5 (amended): for every assembled context on the rich-persona path,
the knowledge-bridges string is computed by `_generate_knowledge_bridges`
with the HARDCODED target `"AI"` — not the learning topic of the request
(see the counterexample) — including one domain-to-AI phrase for each
expertise entry with confidence ≥ 6 and the default
`"General knowledge to AI"` when none qualifies. -/
theorem C5_knowledge_bridges :
    ∀ (rc : RawContext) (p : RichPersona) (c : SynthContext),
      rc.user_profile = .rich p →
      populate_knowledge_synthesizer_context rc = some c →
      c.knowledge_bridges = generate_knowledge_bridges p.core_expertise "AI" ∧
      (∀ d det, (d, det) ∈ p.core_expertise → 6 ≤ det.confidence.getD 0 →
        strHasB c.knowledge_bridges (pyTitle (pyReplaceUnderscore d) ++ " to " ++ "AI") = true) ∧
      ((p.core_expertise.filter (fun e => 6 ≤ e.2.confidence.getD 0)).isEmpty = true →
        c.knowledge_bridges = "General knowledge to AI") := by
  intro rc p c hup hpop
  unfold populate_knowledge_synthesizer_context at hpop
  cases hg : p.current_goals with
  | nil => simp only [hup, hg] at hpop; cases hpop
  | cons goal rest =>
    by_cases hl : p.core_expertise.any (fun e => e.2.level.isNone) = true
    · simp only [hup, hg, hl, if_true] at hpop; cases hpop
    · have hl2 : p.core_expertise.any (fun e => e.2.level.isNone) = false := by simpa using hl
      simp only [hup, hg, hl2, Bool.false_eq_true, if_false, Option.some.injEq] at hpop
      have hkb : c.knowledge_bridges = generate_knowledge_bridges p.core_expertise "AI" := by
        rw [← hpop]
      refine ⟨hkb, ?_, ?_⟩
      · intro d det hmem hconf
        rw [hkb]
        exact generate_kb_of_mem "AI" hmem hconf
      · intro hfil
        rw [hkb]
        exact generate_kb_default "AI" hfil

/-- C5 counterexample: with expertise Marketing(8)/Art(3) and learning
topic `"Python"`, the knowledge-bridges string is `"Marketing to AI"` — the
confidence filter works, but the target is the hardcoded `"AI"`, so the
string does not contain `"Marketing to Python"`, refuting the claim that
the bridge target is the learning topic of the request. -/
theorem C5_counterexample :
    ((populate_knowledge_synthesizer_context (ctxP4 (some "Python"))).map
      SynthContext.knowledge_bridges) = some "Marketing to AI" ∧
    ((populate_knowledge_synthesizer_context (ctxP4 (some "Python"))).map
      SynthContext.learning_topic) = some "Python" ∧
    strHasB "Marketing to AI" "Marketing to Python" = false ∧
    strHasB "Marketing to AI" "Art to AI" = false := by
  exact ⟨rfl, rfl, by decide, by decide⟩

/-- Populated synthesizer context of the P4 scenario (topic `"AI"`). -/
def cP4 : SynthContext :=
  (populate_knowledge_synthesizer_context (ctxP4 (some "AI"))).getD default

/-- C5 witness: the amended theorem applied to the P4 scenario (topic
`"AI"`, expertise Marketing(8)/Art(3)): the bridges string contains
`"Marketing to AI"`. -/
theorem C5_knowledge_bridges_witness :
    strHasB cP4.knowledge_bridges (pyTitle (pyReplaceUnderscore "Marketing") ++ " to " ++ "AI")
      = true :=
  (C5_knowledge_bridges (ctxP4 (some "AI")) personaP4 cP4 rfl rfl).2.1
    "Marketing" { level := some "expert", confidence := some 8 }
    (by simp [personaP4]) (by decide)

/-- C8 (amended): `assemble_context` with `existing_books` equal to `None`
or `[]` substitutes `MOCK_BOOK_SUMMARIES` (two mock books), NOT an empty
list, so the existing-knowledge summary of the knowledge-synthesizer prompt is
the mock-book text rather than "No prior books found on this topic.". -/
theorem C8_existing_books_mock :
    ∀ (up : Option UserProfile) (ir : Option IntentResult) (ur : Option (List Resource)),
      (assemble_context up ir none ur).existing_knowledge = MOCK_BOOK_SUMMARIES ∧
      (assemble_context up ir (some []) ur).existing_knowledge = MOCK_BOOK_SUMMARIES ∧
      summarize_existing_knowledge MOCK_BOOK_SUMMARIES
        = "\x27Intro to AI\x27 (Topic: AI) - A beginner\x27s guide to AI.; \x27AI evals\x27 (Topic: AI evals) - Overview of evaluation methods in AI." ∧
      summarize_existing_knowledge MOCK_BOOK_SUMMARIES ≠ "No prior books found on this topic." := by
  intro up ir ur
  exact ⟨rfl, rfl, rfl, by decide⟩

/-- Context assembled with every optional input absent. -/
def ctxC8 : RawContext := assemble_context none none none none

/-- C8 counterexample: assembling with every optional input absent yields
two existing-knowledge entries and the mock-book summary text in the
synthesizer context — not the "No prior books found on this topic." default
the claim predicts. -/
theorem C8_counterexample :
    ((populate_knowledge_synthesizer_context ctxC8).map SynthContext.rag_existing_books_summary)
      = some "\x27Intro to AI\x27 (Topic: AI) - A beginner\x27s guide to AI.; \x27AI evals\x27 (Topic: AI evals) - Overview of evaluation methods in AI." ∧
    ctxC8.existing_knowledge.length = 2 ∧
    ¬ ((populate_knowledge_synthesizer_context ctxC8).map SynthContext.rag_existing_books_summary
        = some "No prior books found on this topic.") := by
  exact ⟨rfl, rfl, by decide⟩

/-- C9: when the assembled context holds a present-but-`None` topic and
generation fails, `.get("topic_context", "Unknown Topic")` does not fire, so
the fallback book title is `"Learning None: A Personalized Guide"` and the
fallback plan task texts embed `"None"`, whereas the assembler
strategic-planner prompt substitutes `"Unknown Topic"` via `or` for the same
context. -/
theorem C9_topic_none_asymmetry :
    ∀ (ctx : RawContext) (ep : Option ExecutionPlan) (uuidHex now : String),
      ctx.topic_context = none →
      (generate_toc (some ctx) ep none).book_structure.title
        = Json.str "Learning None: A Personalized Guide" ∧
      (planner_agent (some ctx) none uuidHex now).execution_plan.agent_plans
        = fallbackAgentPlans none ∧
      (((fallbackAgentPlans none).headD .null |> tasksOf).map
        (fun t => (t.lookup "task_name").getD .null))
        = [.str "Generate comprehensive personalized ToC for None",
           .str "Identify prerequisite concepts for None",
           .str "Create practical application roadmap for None"] ∧
      strHasB "Generate comprehensive personalized ToC for None" "None" = true ∧
      (∀ pc, populate_strategic_planner_context ctx = some pc →
        pc.learning_topic = "Unknown Topic") := by
  intro ctx ep uuidHex now htc
  refine ⟨?_, ?_, rfl, by decide, ?_⟩
  · rw [generate_toc_response_none ctx ep, htc]; rfl
  · rw [planner_agent_response_none ctx uuidHex now, htc]
  · intro pc hpc
    unfold populate_strategic_planner_context at hpc
    cases hftg : format_goals_timeline ctx with
    | none => simp only [hftg] at hpc; cases hpc
    | some gt =>
      simp only [hftg, Option.some.injEq] at hpc
      rw [← hpc, htc]; rfl

/-- Context with a present-but-`None` topic. -/
def ctxC9 : RawContext := assemble_context none (some { topic := none }) none none

/-- C9 witness: the theorem applied to a concrete context assembled from
an intent result whose topic is `None`. -/
theorem C9_topic_none_asymmetry_witness :
    (generate_toc (some ctxC9) none none).book_structure.title
      = Json.str "Learning None: A Personalized Guide" :=
  (C9_topic_none_asymmetry ctxC9 none "u" "n" rfl).1

set_option maxRecDepth 40000 in
/-- C10 counterexample: the planner parser
`_parse_and_validate_execution_plan` does accept a bare-fenced valid
agent-plan array, but `planner_agent` itself still returns the fallback
(`planning_success = false`, fallback agent plans) at that input — the
prompt render raises before the response is ever parsed — refuting the
claim that the bare-fenced array "is accepted by planner_agent". -/
theorem C10_counterexample :
    (parse_and_validate_execution_plan planJsonFenced).isSome = true ∧
    (planner_agent (some ctx0) (some planJsonFenced) "u" "n").planning_success = false ∧
    (planner_agent (some ctx0) (some planJsonFenced) "u" "n").execution_plan.agent_plans
      = fallbackAgentPlans (some "AI") := by
  refine ⟨by decide, ?_, ?_⟩
  · rw [planner_agent_always_fallback]
  · rw [planner_agent_always_fallback]; rfl

set_option maxRecDepth 40000 in
/-- C10 (amended): the two parsers strip markdown fences asymmetrically —
a valid, schema-complete book JSON object wrapped in bare (untagged) fences
is rejected by the synthesizer parser so `generate_toc` returns the
fallback structure, while an equivalently bare-fenced valid agent-plan
array is accepted by the PARSER `_parse_and_validate_execution_plan`
(which additionally strips a bare leading fence and re-slices to the first
`[` and last `]`); `planner_agent` itself, however, never reaches its
parser — the strategic-planner prompt render raises first — and returns
the fallback with `planning_success = false` for every response. -/
theorem C10_fence_asymmetry :
    (parse_and_validate_response bookJsonPlain).isSome = true ∧
    parse_and_validate_response bookJsonFenced = none ∧
    generate_toc (some ctx0) none (some bookJsonFenced)
      = ⟨create_fallback_response ctx0.topic_context⟩ ∧
    (parse_and_validate_execution_plan planJsonPlain).isSome = true ∧
    (parse_and_validate_execution_plan planJsonFenced).isSome = true ∧
    (planner_agent (some ctx0) (some planJsonFenced) "u" "n").planning_success = false := by
  refine ⟨by decide, rfl, rfl, by decide, by decide, ?_⟩
  rw [planner_agent_always_fallback]
